import Mathlib

/-!
Shallow embedding of the waveguide-simulator mode-solving engine.

The TypeScript sources are translated over `ℝ` (IEEE-754 doubles are modelled
as real numbers; `isFinite` checks, which can only fail on NaN/Infinity
inputs, have no counterpart in `ℝ` and are noted where dropped).  Code that
throws (`getBesselJZero` / `getBesselJPrimeZero` parameter validation,
constructor validation) is modelled with `Option` / `Except`.  JavaScript
division by zero yields Infinity while Lean's `ℝ` division yields 0; no
theorem below depends on a division-by-zero branch except where explicitly
commented.
-/

open scoped Classical
open scoped Real

noncomputable section

namespace WaveguideSim

/- Physical constants (src/types/index.ts, `CONSTANTS`). -/
namespace CONSTANTS

/-- Speed of light in vacuum (m/s). -/
def c : ℝ := 299792458

/-- Vacuum permeability (H/m). -/
def mu0 : ℝ := 4 * π * 1e-7

/-- Vacuum permittivity (F/m). -/
def eps0 : ℝ := 8.854187817e-12

/-- Vacuum impedance (Ω). -/
def eta0 : ℝ := 376.730313668

end CONSTANTS

/-- Mode family tag (src/types/index.ts, `ModeType`). -/
inductive ModeType where
  | TE | TM | TEM | HE | EH
deriving DecidableEq

/-- A propagation mode (src/types/index.ts, `Mode`). -/
structure Mode where
  type : ModeType
  m : ℕ
  n : ℕ
deriving DecidableEq

/-- 3D real vector (src/types/index.ts, `Vector3D`). -/
structure Vector3D where
  x : ℝ
  y : ℝ
  z : ℝ

/-- Instantaneous E/H field sample (src/types/index.ts, `FieldVector`). -/
structure FieldVector where
  E : Vector3D
  H : Vector3D

/-- The all-zero field vector, returned for out-of-domain or evanescent queries. -/
def zeroFieldVector : FieldVector :=
  { E := { x := 0, y := 0, z := 0 }, H := { x := 0, y := 0, z := 0 } }

/-- Derived scalar bundle (src/types/index.ts, `CalculatedParams`). -/
structure CalculatedParams where
  cutoffFrequency : ℝ
  cutoffWavelength : ℝ
  propagationConstant : ℝ
  phaseVelocity : ℝ
  groupVelocity : ℝ
  wavelengthGuide : ℝ
  impedance : ℝ
  isPropagatif : Bool

/-! ### Bessel library (src/engine/math/bessel.ts) -/

/-- `factorial` from bessel.ts.  The source's `n < 0 → Infinity` branch is
unreachable here because the order is a natural number. -/
def factorial (n : ℕ) : ℝ := (Nat.factorial n : ℝ)

/-- Loop body of `besselJSeries`: k ranges over 0..49, accumulating
`(-1)^k (x/2)^(2k+n) / (k! (k+n)!)`, breaking when the term magnitude drops
below `1e-15` relative to the updated sum. -/
def besselJSeriesGo (n : ℕ) (x : ℝ) (k : ℕ) (sum : ℝ) : ℝ :=
  if 50 ≤ k then sum
  else
    let term := (-1 : ℝ) ^ k * (x / 2) ^ (2 * k + n) / (factorial k * factorial (k + n))
    let sum2 := sum + term
    if |term| < 1e-15 * |sum2| then sum2
    else besselJSeriesGo n x (k + 1) sum2
termination_by 50 - k
decreasing_by omega

/-- `besselJSeries` from bessel.ts (power series for |x| < 8). -/
def besselJSeries (n : ℕ) (x : ℝ) : ℝ := besselJSeriesGo n x 0 0

/-- `besselJAsymptotic` from bessel.ts (|x| ≥ 8). -/
def besselJAsymptotic (n : ℕ) (x : ℝ) : ℝ :=
  let phase := x - ((n : ℝ) / 2 + 0.25) * π
  let amplitude := Real.sqrt (2 / (π * x))
  amplitude * Real.cos phase

/-- `besselJ` from bessel.ts. -/
def besselJ (n : ℕ) (x : ℝ) : ℝ :=
  if x = 0 then (if n = 0 then 1 else 0)
  else if |x| < 8 then besselJSeries n x
  else besselJAsymptotic n x

/-- `besselJPrime` from bessel.ts. -/
def besselJPrime (n : ℕ) (x : ℝ) : ℝ :=
  if n = 0 then -besselJ 1 x
  else 0.5 * (besselJ (n - 1) x - besselJ (n + 1) x)

/-- `harmonicSum` from bessel.ts: `Σ_{k=1..n} 1/k`. -/
def harmonicSum (n : ℕ) : ℝ := ∑ k ∈ Finset.range n, (1 : ℝ) / (k + 1)

/-- Loop body of `besselY0`: k ranges over 1..20, breaking when
`|term| < 1e-15` (absolute, unlike `besselJSeries`). -/
def besselY0Go (x : ℝ) (k : ℕ) (sum : ℝ) : ℝ :=
  if 20 < k then sum
  else
    let term := (-1 : ℝ) ^ (k + 1) * (x / 2) ^ (2 * k) / (factorial k) ^ 2 * harmonicSum k
    let sum2 := sum + term
    if |term| < 1e-15 then sum2
    else besselY0Go x (k + 1) sum2
termination_by 21 - k
decreasing_by omega

/-- `besselY0` from bessel.ts. -/
def besselY0 (x : ℝ) : ℝ :=
  let gamma : ℝ := 0.5772156649015329
  if x < 8 then
    let j0 := besselJ 0 x
    let sum := besselY0Go x 1 0
    (2 / π) * ((Real.log (x / 2) + gamma) * j0 + sum)
  else
    let phase := x - π / 4
    let amplitude := Real.sqrt (2 / (π * x))
    amplitude * Real.sin phase

/-- Loop body of `besselY1`: k ranges over 0..20, breaking when
`|term| < 1e-15` and `k > 0`. -/
def besselY1Go (x : ℝ) (k : ℕ) (sum : ℝ) : ℝ :=
  if 20 < k then sum
  else
    let hk := if k = 0 then 0 else harmonicSum k
    let hk1 := harmonicSum (k + 1)
    let term := (-1 : ℝ) ^ k * (x / 2) ^ (2 * k + 1) / (factorial k * factorial (k + 1)) * (hk + hk1)
    let sum2 := sum + term
    if |term| < 1e-15 ∧ 0 < k then sum2
    else besselY1Go x (k + 1) sum2
termination_by 21 - k
decreasing_by omega

/-- `besselY1` from bessel.ts. -/
def besselY1 (x : ℝ) : ℝ :=
  if x < 8 then
    let j1 := besselJ 1 x
    let gamma : ℝ := 0.5772156649015329
    let sum := besselY1Go x 0 0
    (2 / π) * ((Real.log (x / 2) + gamma) * j1 - 1 / x - sum)
  else
    let phase := x - 3 * π / 4
    let amplitude := Real.sqrt (2 / (π * x))
    amplitude * Real.sin phase

/-- Forward recurrence loop of `besselY` for n > 1:
`for (k = 1; k < n; k++) { yn = (2k/x)y1 - y0; y0 = y1; y1 = yn }`. -/
def besselYRecGo (x : ℝ) (n : ℕ) (k : ℕ) (y0 y1 : ℝ) : ℝ :=
  if k < n then besselYRecGo x n (k + 1) y1 ((2 * k / x) * y1 - y0)
  else y1
termination_by n - k
decreasing_by omega

/-- `besselY` from bessel.ts.  The source returns a `-Infinity` sentinel for
`x ≤ 0`; `ℝ` has no infinity, so that branch is modelled as `0` — no theorem
in this file depends on the sentinel branch's value. -/
def besselY (n : ℕ) (x : ℝ) : ℝ :=
  if x ≤ 0 then 0
  else if n = 0 then besselY0 x
  else if n = 1 then besselY1 x
  else besselYRecGo x n 1 (besselY0 x) (besselY1 x)

/-- `besselYPrime` from bessel.ts. -/
def besselYPrime (n : ℕ) (x : ℝ) : ℝ :=
  if n = 0 then -besselY 1 x
  else 0.5 * (besselY (n - 1) x - besselY (n + 1) x)

/-- `BESSEL_J_ZEROS` table from bessel.ts (`Record<number, number[]>`). -/
def BESSEL_J_ZEROS : ℕ → Option (List ℝ)
  | 0 => some [2.4048, 5.5201, 8.6537, 11.7915, 14.9309]
  | 1 => some [3.8317, 7.0156, 10.1735, 13.3237, 16.4706]
  | 2 => some [5.1356, 8.4172, 11.6198, 14.7960, 17.9598]
  | 3 => some [6.3802, 9.7610, 13.0152, 16.2235, 19.4094]
  | 4 => some [7.5883, 11.0647, 14.3725, 17.6160, 20.8269]
  | _ => none

/-- `BESSEL_J_PRIME_ZEROS` table from bessel.ts. -/
def BESSEL_J_PRIME_ZEROS : ℕ → Option (List ℝ)
  | 0 => some [3.8317, 7.0156, 10.1735, 13.3237, 16.4706]
  | 1 => some [1.8412, 5.3314, 8.5363, 11.7060, 14.8636]
  | 2 => some [3.0542, 6.7061, 9.9695, 13.1704, 16.3475]
  | 3 => some [4.2012, 8.0152, 11.3459, 14.5858, 17.7887]
  | 4 => some [5.3175, 9.2824, 12.6819, 15.9641, 19.1960]
  | _ => none

/-- Newton iteration of `findBesselJZero`: up to 20 steps of
`x ← x - J/J'`, breaking when `|dx| < 1e-12`. -/
def findBesselJZeroGo (n : ℕ) (i : ℕ) (x : ℝ) : ℝ :=
  if 20 ≤ i then x
  else
    let j := besselJ n x
    let jp := besselJPrime n x
    let dx := -j / jp
    let x2 := x + dx
    if |dx| < 1e-12 then x2
    else findBesselJZeroGo n (i + 1) x2
termination_by 20 - i
decreasing_by omega

/-- `findBesselJZero` from bessel.ts (Newton-Raphson fallback). -/
def findBesselJZero (n p : ℕ) : ℝ :=
  findBesselJZeroGo n 0 ((n : ℝ) + 1.8 * (n : ℝ) ^ ((1 : ℝ) / 3) + ((p : ℝ) - 0.5) * π)

/-- Newton iteration of `findBesselJPrimeZero`. -/
def findBesselJPrimeZeroGo (n : ℕ) (i : ℕ) (x : ℝ) : ℝ :=
  if 20 ≤ i then x
  else
    let jp := besselJPrime n x
    let jpp := ((n : ℝ) ^ 2 / x ^ 2 - 1) * besselJ n x - besselJPrime n x / x
    let dx := -jp / jpp
    let x2 := x + dx
    if |dx| < 1e-12 then x2
    else findBesselJPrimeZeroGo n (i + 1) x2
termination_by 20 - i
decreasing_by omega

/-- `findBesselJPrimeZero` from bessel.ts. -/
def findBesselJPrimeZero (n p : ℕ) : ℝ :=
  let x0 : ℝ :=
    if n = 0 then ((p : ℝ) + 0.25) * π
    else (n : ℝ) + 0.8 * (n : ℝ) ^ ((1 : ℝ) / 3) + ((p : ℝ) - 0.5) * π
  findBesselJPrimeZeroGo n 0 x0

/-- Table-or-Newton value computed by `getBesselJZero` once its parameter
validation has passed. -/
def besselJZeroVal (n p : ℕ) : ℝ :=
  match BESSEL_J_ZEROS n with
  | some zs => if p ≤ zs.length then zs.getD (p - 1) 0 else findBesselJZero n p
  | none => findBesselJZero n p

/-- `getBesselJZero` from bessel.ts.  The source throws for `p < 1` (and for
negative or non-integer arguments, unrepresentable for `ℕ`); the throw is
modelled as `none`. -/
def getBesselJZero (n p : ℕ) : Option ℝ :=
  if p < 1 then none else some (besselJZeroVal n p)

/-- Table-or-Newton value computed by `getBesselJPrimeZero` after validation. -/
def besselJPrimeZeroVal (n p : ℕ) : ℝ :=
  match BESSEL_J_PRIME_ZEROS n with
  | some zs => if p ≤ zs.length then zs.getD (p - 1) 0 else findBesselJPrimeZero n p
  | none => findBesselJPrimeZero n p

/-- `getBesselJPrimeZero` from bessel.ts; the `p < 1` throw is `none`. -/
def getBesselJPrimeZero (n p : ℕ) : Option ℝ :=
  if p < 1 then none else some (besselJPrimeZeroVal n p)

/-! ### Abstract waveguide contract (src/engine/core/Waveguide.ts)

The base class's two concrete methods call the virtual `getCutoffFrequency`
and `getCutoffWavenumber`; they are modelled as functions taking the values
returned by those virtuals (`fc`, `kc`) as explicit arguments. -/

namespace Waveguide

/-- `Waveguide.getPropagationConstant` (shared default implementation). -/
def getPropagationConstant (fc kc frequency : ℝ) : ℝ :=
  if frequency ≤ fc then
    -- evanescent: attenuation constant α
    let k := 2 * π * frequency / CONSTANTS.c
    Real.sqrt (kc * kc - k * k)
  else
    -- propagating: β
    let k := 2 * π * frequency / CONSTANTS.c
    Real.sqrt (k * k - kc * kc)

/-- `Waveguide.getCalculatedParams` (shared default implementation).
`modeType` is the `mode.type` field consulted for the impedance. -/
def getCalculatedParams (fc kc : ℝ) (modeType : ModeType) (frequency : ℝ) : CalculatedParams :=
  let lambdaC := CONSTANTS.c / fc
  let isPropagatif : Bool := decide (frequency > fc)
  if isPropagatif then
    let k := 2 * π * frequency / CONSTANTS.c
    let beta := Real.sqrt (k * k - kc * kc)
    let vp := CONSTANTS.c / Real.sqrt (1 - (fc / frequency) ^ 2)
    let vg := CONSTANTS.c * Real.sqrt (1 - (fc / frequency) ^ 2)
    let lambda := CONSTANTS.c / frequency
    let lambdaG := lambda / Real.sqrt (1 - (fc / frequency) ^ 2)
    let impedance : ℝ :=
      match modeType with
      | .TE => CONSTANTS.eta0 / Real.sqrt (1 - (fc / frequency) ^ 2)
      | .TM => CONSTANTS.eta0 * Real.sqrt (1 - (fc / frequency) ^ 2)
      | .TEM => CONSTANTS.eta0
      | _ => 0
    { cutoffFrequency := fc, cutoffWavelength := lambdaC, propagationConstant := beta,
      phaseVelocity := vp, groupVelocity := vg, wavelengthGuide := lambdaG,
      impedance := impedance, isPropagatif := isPropagatif }
  else
    { cutoffFrequency := fc, cutoffWavelength := lambdaC, propagationConstant := 0,
      phaseVelocity := 0, groupVelocity := 0, wavelengthGuide := 0,
      impedance := 0, isPropagatif := isPropagatif }

end Waveguide

/-! ### Rectangular waveguide (src/engine/waveguides/RectangularWaveguide.ts) -/

/-- A constructed rectangular waveguide instance (fields `a ≥ b` by the
constructor's normalization). -/
structure RectangularWaveguide where
  a : ℝ
  b : ℝ

namespace RectangularWaveguide

/-- The constructor of `RectangularWaveguide`.  Throws (here: `.error`) when
a dimension is non-positive; the `isFinite` part of the check cannot fail
over `ℝ`.  On success, dimensions are swapped so that `a ≥ b`. -/
def create (pa pb : ℝ) : Except String RectangularWaveguide :=
  if pa ≤ 0 then .error "RectangularWaveguide: dimension a doit etre positive"
  else if pb ≤ 0 then .error "RectangularWaveguide: dimension b doit etre positive"
  else .ok { a := max pa pb, b := min pa pb }

/-- `getCutoffWavenumber`: `kc = sqrt((mπ/a)² + (nπ/b)²)`. -/
def getCutoffWavenumber (g : RectangularWaveguide) (mode : Mode) : ℝ :=
  Real.sqrt (((mode.m : ℝ) * π / g.a) ^ 2 + ((mode.n : ℝ) * π / g.b) ^ 2)

/-- `getCutoffFrequency`: `fc = c·kc/(2π)`. -/
def getCutoffFrequency (g : RectangularWaveguide) (mode : Mode) : ℝ :=
  CONSTANTS.c * g.getCutoffWavenumber mode / (2 * π)

/-- `isModeSupported`. -/
def isModeSupported (_g : RectangularWaveguide) (mode : Mode) : Bool :=
  match mode.type with
  | .TE => !(mode.m = 0 ∧ mode.n = 0 : Bool)
  | .TM => 1 ≤ mode.m ∧ 1 ≤ mode.n
  | _ => false

/-- The mode list built by `getAvailableModes` before sorting: TE with
`0 ≤ m,n ≤ 3` (skipping `(0,0)`), then TM with `1 ≤ m,n ≤ 3`. -/
def baseModes : List Mode :=
  ((List.range 4).flatMap fun m =>
    (List.range 4).flatMap fun n =>
      if m = 0 ∧ n = 0 then [] else [{ type := .TE, m := m, n := n }])
  ++ ((List.range 3).flatMap fun i =>
    (List.range 3).flatMap fun j =>
      [{ type := .TM, m := i + 1, n := j + 1 }])

/-- `getAvailableModes`: the enumerated modes, stably sorted by cutoff
frequency (`.sort((a, b) => fc(a) - fc(b))` in the source; JavaScript's
sort is stable, so it is modelled by the stable `List.insertionSort`). -/
def getAvailableModes (g : RectangularWaveguide) : List Mode :=
  baseModes.insertionSort fun p q => g.getCutoffFrequency p ≤ g.getCutoffFrequency q

/-- `getCalculatedParams` as inherited from the base class (dynamic dispatch
plugs the rectangular cutoff frequency/wavenumber into the shared method). -/
def getCalculatedParams (g : RectangularWaveguide) (frequency : ℝ) (mode : Mode) :
    CalculatedParams :=
  Waveguide.getCalculatedParams (g.getCutoffFrequency mode) (g.getCutoffWavenumber mode)
    mode.type frequency

/-- `getTEFieldDistribution` (private helper). -/
def getTEFieldDistribution (g : RectangularWaveguide) (x y : ℝ) (m n : ℕ)
    (kc beta omega phaseFactor : ℝ) : FieldVector :=
  let kx := (m : ℝ) * π / g.a
  let ky := (n : ℝ) * π / g.b
  let cosKxX := Real.cos (kx * x)
  let sinKxX := Real.sin (kx * x)
  let cosKyY := Real.cos (ky * y)
  let sinKyY := Real.sin (ky * y)
  let Hz := cosKxX * cosKyY * phaseFactor
  let invKc2 := 1 / (kc * kc)
  let ZTE := omega * CONSTANTS.mu0 / beta
  let Ex := invKc2 * omega * CONSTANTS.mu0 * ky * cosKxX * sinKyY * phaseFactor
  let Ey := -invKc2 * omega * CONSTANTS.mu0 * kx * sinKxX * cosKyY * phaseFactor
  let Hx := invKc2 * beta * kx * sinKxX * cosKyY * phaseFactor
  let Hy := invKc2 * beta * ky * cosKxX * sinKyY * phaseFactor
  let visualNorm := 1 / (ZTE * kc)
  { E := { x := Ex * visualNorm, y := Ey * visualNorm, z := 0 },
    H := { x := Hx * visualNorm, y := Hy * visualNorm, z := Hz * visualNorm } }

/-- `getTMFieldDistribution` (private helper). -/
def getTMFieldDistribution (g : RectangularWaveguide) (x y : ℝ) (m n : ℕ)
    (kc beta omega phaseFactor : ℝ) : FieldVector :=
  let kx := (m : ℝ) * π / g.a
  let ky := (n : ℝ) * π / g.b
  let cosKxX := Real.cos (kx * x)
  let sinKxX := Real.sin (kx * x)
  let cosKyY := Real.cos (ky * y)
  let sinKyY := Real.sin (ky * y)
  let Ez := sinKxX * sinKyY * phaseFactor
  let invKc2 := 1 / (kc * kc)
  let ZTM := beta / (omega * CONSTANTS.eps0)
  let Ex := -invKc2 * beta * kx * cosKxX * sinKyY * phaseFactor
  let Ey := -invKc2 * beta * ky * sinKxX * cosKyY * phaseFactor
  let Hx := invKc2 * omega * CONSTANTS.eps0 * ky * sinKxX * cosKyY * phaseFactor
  let Hy := -invKc2 * omega * CONSTANTS.eps0 * kx * cosKxX * sinKyY * phaseFactor
  let visualNorm := 1 / (ZTM * kc)
  { E := { x := Ex * visualNorm, y := Ey * visualNorm, z := Ez * visualNorm },
    H := { x := Hx * visualNorm, y := Hy * visualNorm, z := 0 } }

/-- `getFieldDistribution`.  Coordinates are relative to the guide center;
`time` enters only through `phaseFactor = cos(time - β·z)` (the source
comments that `time` is an animation phase in radians here). -/
def getFieldDistribution (g : RectangularWaveguide) (x y z : ℝ) (mode : Mode)
    (frequency time : ℝ) : FieldVector :=
  let params := g.getCalculatedParams frequency mode
  let xLocal := x + g.a / 2
  let yLocal := y + g.b / 2
  if xLocal < 0 ∨ xLocal > g.a ∨ yLocal < 0 ∨ yLocal > g.b then zeroFieldVector
  else if !params.isPropagatif then zeroFieldVector
  else
    let kc := g.getCutoffWavenumber mode
    let beta := params.propagationConstant
    let omega := 2 * π * frequency
    let phaseFactor := Real.cos (time - beta * z)
    match mode.type with
    | .TE => g.getTEFieldDistribution xLocal yLocal mode.m mode.n kc beta omega phaseFactor
    | .TM => g.getTMFieldDistribution xLocal yLocal mode.m mode.n kc beta omega phaseFactor
    | _ => zeroFieldVector

end RectangularWaveguide

/-! ### Circular waveguide (src/engine/waveguides/CircularWaveguide.ts)

Note: the circular constructor performs no validation (unlike rectangular
and coaxial), and `getCutoffWavenumber` for TE/TM calls the Bessel-zero
lookups, which throw for a radial index `m < 1`; those throws are modelled
by `Option`. -/

/-- `atan2(y, x)` as used by `Math.atan2`; `Complex.arg (x + y·i)` has the
same characterization (range `(-π, π]`, `atan2 0 0 = 0`). -/
def atan2 (y x : ℝ) : ℝ := Complex.arg ⟨x, y⟩

/-- A circular waveguide instance. -/
structure CircularWaveguide where
  radius : ℝ

namespace CircularWaveguide

/-- The constructor of `CircularWaveguide`: it stores the radius with **no
validation whatsoever** (contrast with `RectangularWaveguide.create` and
`CoaxialWaveguide.create`). -/
def create (radius : ℝ) : Except String CircularWaveguide :=
  .ok { radius := radius }

/-- `getCutoffWavenumber`: `χ'ₙₘ/radius` for TE, `χₙₘ/radius` for TM
(`n` = azimuthal order, `m` = radial root index), `0` otherwise.
`none` models the exception thrown by the zero lookup when `m < 1`. -/
def getCutoffWavenumber (g : CircularWaveguide) (mode : Mode) : Option ℝ :=
  match mode.type with
  | .TE => (getBesselJPrimeZero mode.n mode.m).map fun chi => chi / g.radius
  | .TM => (getBesselJZero mode.n mode.m).map fun chi => chi / g.radius
  | _ => some 0

/-- `getCutoffFrequency`: `fc = c·kc/(2π)`. -/
def getCutoffFrequency (g : CircularWaveguide) (mode : Mode) : Option ℝ :=
  (g.getCutoffWavenumber mode).map fun kc => CONSTANTS.c * kc / (2 * π)

/-- `isModeSupported`. -/
def isModeSupported (_g : CircularWaveguide) (mode : Mode) : Bool :=
  match mode.type with
  | .TE => 1 ≤ mode.m
  | .TM => 1 ≤ mode.m
  | _ => false

/-- Total-function variant of the TE/TM cutoff wavenumber, agreeing with
`getCutoffWavenumber` whenever the lookup succeeds (`m ≥ 1`); used to state
the sort comparator, which in the source calls the throwing lookup only on
enumerated modes (all of which have `m ≥ 1`). -/
def cutoffWavenumberVal (g : CircularWaveguide) (mode : Mode) : ℝ :=
  match mode.type with
  | .TE => besselJPrimeZeroVal mode.n mode.m / g.radius
  | .TM => besselJZeroVal mode.n mode.m / g.radius
  | _ => 0

/-- Total-function variant of the cutoff frequency. -/
def cutoffFrequencyVal (g : CircularWaveguide) (mode : Mode) : ℝ :=
  CONSTANTS.c * g.cutoffWavenumberVal mode / (2 * π)

/-- The mode list built by `getAvailableModes` before sorting: TE then TM,
`0 ≤ n ≤ 3`, `1 ≤ m ≤ 3`. -/
def baseModes : List Mode :=
  ((List.range 4).flatMap fun n =>
    (List.range 3).flatMap fun i =>
      [{ type := .TE, m := i + 1, n := n }])
  ++ ((List.range 4).flatMap fun n =>
    (List.range 3).flatMap fun i =>
      [{ type := .TM, m := i + 1, n := n }])

/-- `getAvailableModes`: stable sort by cutoff frequency. -/
def getAvailableModes (g : CircularWaveguide) : List Mode :=
  baseModes.insertionSort fun p q => g.cutoffFrequencyVal p ≤ g.cutoffFrequencyVal q

/-- `getCalculatedParams` as inherited from the base class; `none` when the
virtual cutoff calls throw. -/
def getCalculatedParams (g : CircularWaveguide) (frequency : ℝ) (mode : Mode) :
    Option CalculatedParams := do
  let fc ← g.getCutoffFrequency mode
  let kc ← g.getCutoffWavenumber mode
  pure (Waveguide.getCalculatedParams fc kc mode.type frequency)

/-- `getTEFieldDistribution` (private helper).  `chi` is the value of the
`getBesselJPrimeZero(n, p)` call at the helper's head (extracted by the
caller so the helper itself is total). -/
def getTEFieldDistribution (_g : CircularWaveguide) (rho phi x y : ℝ) (n _p : ℕ)
    (kc beta omega phaseFactor chi : ℝ) : FieldVector :=
  let kcRho := kc * rho
  let JnAtBoundary := besselJ n chi
  let normFactor := 1 / (if |JnAtBoundary| > 1e-10 then JnAtBoundary else 1)
  let Jn := besselJ n kcRho * normFactor
  let JnPrime := besselJPrime n kcRho * normFactor
  let Hz := Jn * Real.cos ((n : ℝ) * phi) * phaseFactor
  let ZTE := omega * CONSTANTS.mu0 / beta
  let commonFactor := 1 / (kc * kc)
  let Erho := if rho > 1e-10 then
      commonFactor * omega * CONSTANTS.mu0 * ((n : ℝ) / rho) * Jn *
        Real.sin ((n : ℝ) * phi) * phaseFactor
    else 0
  let Ephi := -commonFactor * omega * CONSTANTS.mu0 * kc * JnPrime *
    Real.cos ((n : ℝ) * phi) * phaseFactor
  let Hrho := commonFactor * beta * kc * JnPrime * Real.cos ((n : ℝ) * phi) * phaseFactor
  let Hphi := if rho > 1e-10 then
      -commonFactor * beta * ((n : ℝ) / rho) * Jn * Real.sin ((n : ℝ) * phi) * phaseFactor
    else 0
  let cosPhi := if rho > 1e-10 then x / rho else 1
  let sinPhi := if rho > 1e-10 then y / rho else 0
  let visualNorm := 1 / (ZTE * kc)
  { E := { x := (Erho * cosPhi - Ephi * sinPhi) * visualNorm,
           y := (Erho * sinPhi + Ephi * cosPhi) * visualNorm, z := 0 },
    H := { x := (Hrho * cosPhi - Hphi * sinPhi) * visualNorm,
           y := (Hrho * sinPhi + Hphi * cosPhi) * visualNorm, z := Hz * visualNorm } }

/-- `getTMFieldDistribution` (private helper): the TM normalization uses the
documented approximation `JnMax = n === 0 ? 1 : 0.5`. -/
def getTMFieldDistribution (_g : CircularWaveguide) (rho phi x y : ℝ) (n _p : ℕ)
    (kc beta omega phaseFactor : ℝ) : FieldVector :=
  let kcRho := kc * rho
  let JnMax : ℝ := if n = 0 then 1 else 0.5
  let normFactor := 1 / JnMax
  let Jn := besselJ n kcRho * normFactor
  let JnPrime := besselJPrime n kcRho * normFactor
  let Ez := Jn * Real.cos ((n : ℝ) * phi) * phaseFactor
  let ZTM := beta / (omega * CONSTANTS.eps0)
  let commonFactor := 1 / (kc * kc)
  let Erho := -commonFactor * beta * kc * JnPrime * Real.cos ((n : ℝ) * phi) * phaseFactor
  let Ephi := if rho > 1e-10 then
      commonFactor * beta * ((n : ℝ) / rho) * Jn * Real.sin ((n : ℝ) * phi) * phaseFactor
    else 0
  let Hrho := if rho > 1e-10 then
      commonFactor * omega * CONSTANTS.eps0 * ((n : ℝ) / rho) * Jn *
        Real.sin ((n : ℝ) * phi) * phaseFactor
    else 0
  let Hphi := commonFactor * omega * CONSTANTS.eps0 * kc * JnPrime *
    Real.cos ((n : ℝ) * phi) * phaseFactor
  let cosPhi := if rho > 1e-10 then x / rho else 1
  let sinPhi := if rho > 1e-10 then y / rho else 0
  let visualNorm := 1 / (ZTM * kc)
  { E := { x := (Erho * cosPhi - Ephi * sinPhi) * visualNorm,
           y := (Erho * sinPhi + Ephi * cosPhi) * visualNorm, z := Ez * visualNorm },
    H := { x := (Hrho * cosPhi - Hphi * sinPhi) * visualNorm,
           y := (Hrho * sinPhi + Hphi * cosPhi) * visualNorm, z := 0 } }

/-- `getFieldDistribution`.  The parameter bundle is computed **before** the
domain check (so an invalid mode's exception escapes even for points outside
the guide); `time` enters only through `phaseFactor = cos(ω·time - β·z)`
(seconds, unlike the rectangular and coaxial guides). -/
def getFieldDistribution (g : CircularWaveguide) (x y z : ℝ) (mode : Mode)
    (frequency time : ℝ) : Option FieldVector := do
  let params ← g.getCalculatedParams frequency mode
  let rho := Real.sqrt (x * x + y * y)
  let phi := atan2 y x
  if rho > g.radius then pure zeroFieldVector
  else if !params.isPropagatif then pure zeroFieldVector
  else do
    let kc ← g.getCutoffWavenumber mode
    let beta := params.propagationConstant
    let omega := 2 * π * frequency
    let phaseFactor := Real.cos (omega * time - beta * z)
    match mode.type with
    | .TE => do
        let chi ← getBesselJPrimeZero mode.n mode.m
        pure (g.getTEFieldDistribution rho phi x y mode.n mode.m kc beta omega phaseFactor chi)
    | .TM =>
        pure (g.getTMFieldDistribution rho phi x y mode.n mode.m kc beta omega phaseFactor)
    | _ => pure zeroFieldVector

end CircularWaveguide

/-! ### Coaxial waveguide (CoaxialWaveguide.ts) -/

/-- A coaxial waveguide instance: inner conductor radius `a`, outer `b`. -/
structure CoaxialWaveguide where
  innerRadius : ℝ
  outerRadius : ℝ

namespace CoaxialWaveguide

/-- The constructor of `CoaxialWaveguide`: validates both radii positive
(the `isFinite` part cannot fail over `ℝ`) and `inner < outer`. -/
def create (pa pb : ℝ) : Except String CoaxialWaveguide :=
  if pa ≤ 0 then .error "CoaxialWaveguide: rayon interne doit etre positif"
  else if pb ≤ 0 then .error "CoaxialWaveguide: rayon externe doit etre positif"
  else if pa ≥ pb then .error "CoaxialWaveguide: rayon interne doit etre inferieur au rayon externe"
  else .ok { innerRadius := pa, outerRadius := pb }

/-- `getCutoffWavenumber`: 0 for TEM; geometric approximations for TE/TM
(the transcendental equations are not solved in the source). -/
def getCutoffWavenumber (g : CoaxialWaveguide) (mode : Mode) : ℝ :=
  let a := g.innerRadius
  let b := g.outerRadius
  match mode.type with
  | .TEM => 0
  | .TE =>
      let meanRadius := (a + b) / 2
      if mode.n = 0 then (mode.m : ℝ) * π / (b - a)
      else Real.sqrt (((mode.n : ℝ) / meanRadius) ^ 2 + ((mode.m : ℝ) * π / (b - a)) ^ 2)
  | .TM =>
      let meanRadius := (a + b) / 2
      let ratio := b / a
      if mode.n = 0 then (mode.m : ℝ) * π / (b - a) * (1 + 0.1 * (ratio - 1))
      else Real.sqrt (((mode.n : ℝ) / meanRadius) ^ 2 + ((mode.m : ℝ) * π / (b - a)) ^ 2)
  | _ => 0

/-- `getCutoffFrequency`: exactly 0 for TEM, otherwise `c·kc/(2π)`. -/
def getCutoffFrequency (g : CoaxialWaveguide) (mode : Mode) : ℝ :=
  match mode.type with
  | .TEM => 0
  | _ => CONSTANTS.c * g.getCutoffWavenumber mode / (2 * π)

/-- `isModeSupported`. -/
def isModeSupported (_g : CoaxialWaveguide) (mode : Mode) : Bool :=
  match mode.type with
  | .TEM => mode.m = 0 ∧ mode.n = 0
  | .TE => 1 ≤ mode.m
  | .TM => 1 ≤ mode.m
  | _ => false

/-- The mode list built by `getAvailableModes` before sorting: TEM, then TE
and TM with `0 ≤ n ≤ 2`, `1 ≤ m ≤ 2`. -/
def baseModes : List Mode :=
  [{ type := .TEM, m := 0, n := 0 }]
  ++ ((List.range 3).flatMap fun n =>
    (List.range 2).flatMap fun i =>
      [{ type := .TE, m := i + 1, n := n }])
  ++ ((List.range 3).flatMap fun n =>
    (List.range 2).flatMap fun i =>
      [{ type := .TM, m := i + 1, n := n }])

/-- `getAvailableModes`: stable sort by cutoff frequency. -/
def getAvailableModes (g : CoaxialWaveguide) : List Mode :=
  baseModes.insertionSort fun p q => g.getCutoffFrequency p ≤ g.getCutoffFrequency q

/-- `getCharacteristicImpedance`: `Z₀ = (η₀/2π)·ln(b/a)`. -/
def getCharacteristicImpedance (g : CoaxialWaveguide) : ℝ :=
  CONSTANTS.eta0 / (2 * π) * Real.log (g.outerRadius / g.innerRadius)

/-- `getCalculatedParams` as inherited from the base class. -/
def getCalculatedParams (g : CoaxialWaveguide) (frequency : ℝ) (mode : Mode) :
    CalculatedParams :=
  Waveguide.getCalculatedParams (g.getCutoffFrequency mode) (g.getCutoffWavenumber mode)
    mode.type frequency

/-- `getTEMFieldDistribution` (private helper): radial E and azimuthal H,
normalized so that `E(a) = 1`. -/
def getTEMFieldDistribution (g : CoaxialWaveguide) (rho x y : ℝ)
    (phaseFactor : ℝ) : FieldVector :=
  let a := g.innerRadius
  let b := g.outerRadius
  let logRatio := Real.log (b / a)
  let V0 := a * logRatio
  let Erho := V0 / (rho * logRatio) * phaseFactor
  let Hphi := Erho / CONSTANTS.eta0
  let cosPhi := x / rho
  let sinPhi := y / rho
  let visualNorm : ℝ := 1
  { E := { x := Erho * cosPhi * visualNorm, y := Erho * sinPhi * visualNorm, z := 0 },
    H := { x := -Hphi * sinPhi * visualNorm, y := Hphi * cosPhi * visualNorm, z := 0 } }

/-- `getTEFieldDistribution` (private helper): two-Bessel radial function
`R(ρ) = Jn(kcρ)Y'n(kca) - J'n(kca)Yn(kcρ)`. -/
def getTEFieldDistribution (g : CoaxialWaveguide) (rho phi x y : ℝ) (m n : ℕ)
    (beta omega phaseFactor : ℝ) : FieldVector :=
  let kc := g.getCutoffWavenumber { type := .TE, m := m, n := n }
  let a := g.innerRadius
  let kcRho := kc * rho
  let kcA := kc * a
  let Jn := besselJ n kcRho
  let Yn := besselY n kcRho
  let JnPrimeA := besselJPrime n kcA
  let YnPrimeA := besselYPrime n kcA
  let R := Jn * YnPrimeA - JnPrimeA * Yn
  let JnPrime := besselJPrime n kcRho
  let YnPrime := besselYPrime n kcRho
  let RPrime := (JnPrime * YnPrimeA - JnPrimeA * YnPrime) * kc
  let Hz := R * Real.cos ((n : ℝ) * phi) * phaseFactor
  let ZTE := omega * CONSTANTS.mu0 / beta
  let factor := 1 / (kc * kc)
  let Erho := if rho > 1e-10 then
      factor * omega * CONSTANTS.mu0 * ((n : ℝ) / rho) * R *
        Real.sin ((n : ℝ) * phi) * phaseFactor
    else 0
  let Ephi := -factor * omega * CONSTANTS.mu0 * RPrime *
    Real.cos ((n : ℝ) * phi) * phaseFactor / kc
  let Hrho := factor * beta * RPrime * Real.cos ((n : ℝ) * phi) * phaseFactor / kc
  let Hphi := if rho > 1e-10 then
      -factor * beta * ((n : ℝ) / rho) * R * Real.sin ((n : ℝ) * phi) * phaseFactor
    else 0
  let cosPhi := if rho > 1e-10 then x / rho else 1
  let sinPhi := if rho > 1e-10 then y / rho else 0
  let visualNorm := 1 / (ZTE * kc)
  { E := { x := (Erho * cosPhi - Ephi * sinPhi) * visualNorm,
           y := (Erho * sinPhi + Ephi * cosPhi) * visualNorm, z := 0 },
    H := { x := (Hrho * cosPhi - Hphi * sinPhi) * visualNorm,
           y := (Hrho * sinPhi + Hphi * cosPhi) * visualNorm, z := Hz * visualNorm } }

/-- `getTMFieldDistribution` (private helper): radial function
`R(ρ) = Jn(kcρ)Yn(kca) - Jn(kca)Yn(kcρ)`. -/
def getTMFieldDistribution (g : CoaxialWaveguide) (rho phi x y : ℝ) (m n : ℕ)
    (beta omega phaseFactor : ℝ) : FieldVector :=
  let kc := g.getCutoffWavenumber { type := .TM, m := m, n := n }
  let a := g.innerRadius
  let kcRho := kc * rho
  let kcA := kc * a
  let Jn := besselJ n kcRho
  let Yn := besselY n kcRho
  let JnA := besselJ n kcA
  let YnA := besselY n kcA
  let R := Jn * YnA - JnA * Yn
  let JnPrime := besselJPrime n kcRho
  let YnPrime := besselYPrime n kcRho
  let RPrime := (JnPrime * YnA - JnA * YnPrime) * kc
  let Ez := R * Real.cos ((n : ℝ) * phi) * phaseFactor
  let ZTM := beta / (omega * CONSTANTS.eps0)
  let factor := 1 / (kc * kc)
  let Erho := -factor * beta * RPrime * Real.cos ((n : ℝ) * phi) * phaseFactor / kc
  let Ephi := if rho > 1e-10 then
      factor * beta * ((n : ℝ) / rho) * R * Real.sin ((n : ℝ) * phi) * phaseFactor
    else 0
  let Hrho := if rho > 1e-10 then
      factor * omega * CONSTANTS.eps0 * ((n : ℝ) / rho) * R *
        Real.sin ((n : ℝ) * phi) * phaseFactor
    else 0
  let Hphi := factor * omega * CONSTANTS.eps0 * RPrime *
    Real.cos ((n : ℝ) * phi) * phaseFactor / kc
  let cosPhi := if rho > 1e-10 then x / rho else 1
  let sinPhi := if rho > 1e-10 then y / rho else 0
  let visualNorm := 1 / (ZTM * kc)
  { E := { x := (Erho * cosPhi - Ephi * sinPhi) * visualNorm,
           y := (Erho * sinPhi + Ephi * cosPhi) * visualNorm, z := Ez * visualNorm },
    H := { x := (Hrho * cosPhi - Hphi * sinPhi) * visualNorm,
           y := (Hrho * sinPhi + Hphi * cosPhi) * visualNorm, z := 0 } }

/-- `getFieldDistribution`.  Domain check first; TEM uses `β = ω/c` and is
exempt from the evanescent-zero guard (`type !== 'TEM' && !isPropagatif`);
`time` enters only through `phaseFactor = cos(time - β·z)` (an animation
phase in radians, as in the rectangular guide). -/
def getFieldDistribution (g : CoaxialWaveguide) (x y z : ℝ) (mode : Mode)
    (frequency time : ℝ) : FieldVector :=
  let rho := Real.sqrt (x * x + y * y)
  if rho < g.innerRadius ∨ rho > g.outerRadius then zeroFieldVector
  else
    let phi := atan2 y x
    let params := g.getCalculatedParams frequency mode
    let beta := if mode.type = .TEM then 2 * π * frequency / CONSTANTS.c
      else params.propagationConstant
    if mode.type ≠ .TEM ∧ !params.isPropagatif then zeroFieldVector
    else
      let omega := 2 * π * frequency
      let phaseFactor := Real.cos (time - beta * z)
      match mode.type with
      | .TEM => g.getTEMFieldDistribution rho x y phaseFactor
      | .TE => g.getTEFieldDistribution rho phi x y mode.m mode.n beta omega phaseFactor
      | .TM => g.getTMFieldDistribution rho phi x y mode.m mode.n beta omega phaseFactor
      | _ => zeroFieldVector

end CoaxialWaveguide

/-- Comparison definition for the time-convention claim: the circular
guide's `getFieldDistribution` with its phase factor replaced by the
`cos(time - β·z)` convention that the rectangular and coaxial guides use
(everything else identical). -/
def CircularWaveguide.getFieldDistributionTimeAsPhase (g : CircularWaveguide)
    (x y z : ℝ) (mode : Mode) (frequency time : ℝ) : Option FieldVector := do
  let params ← g.getCalculatedParams frequency mode
  let rho := Real.sqrt (x * x + y * y)
  let phi := atan2 y x
  if rho > g.radius then pure zeroFieldVector
  else if !params.isPropagatif then pure zeroFieldVector
  else do
    let kc ← g.getCutoffWavenumber mode
    let beta := params.propagationConstant
    let phaseFactor := Real.cos (time - beta * z)
    let omega := 2 * π * frequency
    match mode.type with
    | .TE => do
        let chi ← getBesselJPrimeZero mode.n mode.m
        pure (g.getTEFieldDistribution rho phi x y mode.n mode.m kc beta omega phaseFactor chi)
    | .TM =>
        pure (g.getTMFieldDistribution rho phi x y mode.n mode.m kc beta omega phaseFactor)
    | _ => pure zeroFieldVector

/-! ### Helper lemmas about the shared parameter calculator -/

namespace Waveguide

theorem getCalculatedParams_of_propagating (fc kc : ℝ) (mt : ModeType) (f : ℝ)
    (h : fc < f) :
    getCalculatedParams fc kc mt f =
      { cutoffFrequency := fc,
        cutoffWavelength := CONSTANTS.c / fc,
        propagationConstant :=
          Real.sqrt (2 * π * f / CONSTANTS.c * (2 * π * f / CONSTANTS.c) - kc * kc),
        phaseVelocity := CONSTANTS.c / Real.sqrt (1 - (fc / f) ^ 2),
        groupVelocity := CONSTANTS.c * Real.sqrt (1 - (fc / f) ^ 2),
        wavelengthGuide := CONSTANTS.c / f / Real.sqrt (1 - (fc / f) ^ 2),
        impedance :=
          match mt with
          | .TE => CONSTANTS.eta0 / Real.sqrt (1 - (fc / f) ^ 2)
          | .TM => CONSTANTS.eta0 * Real.sqrt (1 - (fc / f) ^ 2)
          | .TEM => CONSTANTS.eta0
          | _ => 0,
        isPropagatif := true } := by
  have hb : decide (f > fc) = true := decide_eq_true h
  cases mt <;>
  · rw [getCalculatedParams]
    simp only [hb, if_true]
    all_goals (intro hh; exact ModeType.noConfusion hh)

theorem getCalculatedParams_of_evanescent (fc kc : ℝ) (mt : ModeType) (f : ℝ)
    (h : f ≤ fc) :
    getCalculatedParams fc kc mt f =
      { cutoffFrequency := fc,
        cutoffWavelength := CONSTANTS.c / fc,
        propagationConstant := 0,
        phaseVelocity := 0,
        groupVelocity := 0,
        wavelengthGuide := 0,
        impedance := 0,
        isPropagatif := false } := by
  have hb : decide (f > fc) = false := decide_eq_false (not_lt.mpr h)
  cases mt <;>
  · rw [getCalculatedParams]
    simp only [hb, Bool.false_eq_true, if_false]
    all_goals (intro hh; exact ModeType.noConfusion hh)

theorem isPropagatif_eq (fc kc : ℝ) (mt : ModeType) (f : ℝ) :
    (getCalculatedParams fc kc mt f).isPropagatif = decide (fc < f) := by
  by_cases h : fc < f
  · rw [getCalculatedParams_of_propagating fc kc mt f h]
    simp [h]
  · rw [getCalculatedParams_of_evanescent fc kc mt f (not_lt.mp h)]
    simp [h]

end Waveguide

/-! ### Claim theorems -/

/-- C1 (counterexample): the claim says every geometry's constructor rejects
non-positive dimensions, in particular that `CircularWaveguide` construction
fails for every radius ≤ 0.  In fact the circular constructor performs no
validation: at radius `-1` it succeeds and stores `-1`. -/
theorem C1_counterexample :
    CircularWaveguide.create (-1) = Except.ok { radius := -1 } := rfl

/-- C1 (amended): the rectangular constructor succeeds exactly when both
dimensions are positive, and the coaxial constructor exactly when both radii
are positive and inner < outer, failing otherwise with a descriptive error;
the circular constructor performs no validation and succeeds for every
radius, including non-positive ones.  (Non-finiteness has no counterpart in
the real-number model.) -/
theorem C1_construction_validation (pa pb r : ℝ) :
    ((∃ g, RectangularWaveguide.create pa pb = .ok g) ↔ 0 < pa ∧ 0 < pb)
    ∧ ((∃ g, CoaxialWaveguide.create pa pb = .ok g) ↔ 0 < pa ∧ 0 < pb ∧ pa < pb)
    ∧ CircularWaveguide.create r = .ok { radius := r } := by
  refine ⟨?_, ?_, rfl⟩
  · rw [RectangularWaveguide.create]
    split_ifs with h1 h2
    · simp only [reduceCtorEq, exists_false, false_iff]
      push_neg
      intro hx; linarith
    · simp only [reduceCtorEq, exists_false, false_iff]
      push_neg
      intro _; linarith
    · simp only [Except.ok.injEq, exists_eq', true_iff]
      exact ⟨lt_of_not_le h1, lt_of_not_le h2⟩
  · rw [CoaxialWaveguide.create]
    split_ifs with h1 h2 h3
    · simp only [reduceCtorEq, exists_false, false_iff]
      push_neg
      intro hx _; linarith
    · simp only [reduceCtorEq, exists_false, false_iff]
      push_neg
      intro _ hy; linarith
    · simp only [reduceCtorEq, exists_false, false_iff]
      push_neg
      intro _ _; linarith
    · simp only [Except.ok.injEq, exists_eq', true_iff]
      exact ⟨lt_of_not_le h1, lt_of_not_le h2, lt_of_not_le h3⟩

/-- C3: for the shared `calculatedParams` (with `fc`, `kc` supplied by the
geometry's virtuals), `isPropagating = (f > fc)`; when propagating,
`β = √(k²-kc²)` with `k = 2πf/c`, phase velocity `c/√(1-(fc/f)²)`, group
velocity `c·√(1-(fc/f)²)`, guided wavelength `(c/f)/√(1-(fc/f)²)`, and
impedance `η₀/√(1-(fc/f)²)` (TE), `η₀·√(1-(fc/f)²)` (TM), `η₀` (TEM);
when not propagating, those five fields are all zero. -/
theorem C3_calculated_params (fc kc : ℝ) (mt : ModeType) (f : ℝ) :
    ((Waveguide.getCalculatedParams fc kc mt f).isPropagatif = true ↔ fc < f)
    ∧ (fc < f →
        (Waveguide.getCalculatedParams fc kc mt f).propagationConstant =
          Real.sqrt ((2 * π * f / CONSTANTS.c) ^ 2 - kc ^ 2)
        ∧ (Waveguide.getCalculatedParams fc kc mt f).phaseVelocity =
          CONSTANTS.c / Real.sqrt (1 - (fc / f) ^ 2)
        ∧ (Waveguide.getCalculatedParams fc kc mt f).groupVelocity =
          CONSTANTS.c * Real.sqrt (1 - (fc / f) ^ 2)
        ∧ (Waveguide.getCalculatedParams fc kc mt f).wavelengthGuide =
          (CONSTANTS.c / f) / Real.sqrt (1 - (fc / f) ^ 2)
        ∧ (mt = .TE → (Waveguide.getCalculatedParams fc kc mt f).impedance =
            CONSTANTS.eta0 / Real.sqrt (1 - (fc / f) ^ 2))
        ∧ (mt = .TM → (Waveguide.getCalculatedParams fc kc mt f).impedance =
            CONSTANTS.eta0 * Real.sqrt (1 - (fc / f) ^ 2))
        ∧ (mt = .TEM → (Waveguide.getCalculatedParams fc kc mt f).impedance =
            CONSTANTS.eta0))
    ∧ (f ≤ fc →
        (Waveguide.getCalculatedParams fc kc mt f).propagationConstant = 0
        ∧ (Waveguide.getCalculatedParams fc kc mt f).phaseVelocity = 0
        ∧ (Waveguide.getCalculatedParams fc kc mt f).groupVelocity = 0
        ∧ (Waveguide.getCalculatedParams fc kc mt f).wavelengthGuide = 0
        ∧ (Waveguide.getCalculatedParams fc kc mt f).impedance = 0) := by
  refine ⟨?_, ?_, ?_⟩
  · rw [Waveguide.isPropagatif_eq]
    simp
  · intro h
    rw [Waveguide.getCalculatedParams_of_propagating fc kc mt f h]
    refine ⟨by rw [show (2*π*f/CONSTANTS.c)^2 - kc^2 =
      2*π*f/CONSTANTS.c*(2*π*f/CONSTANTS.c) - kc*kc by ring], rfl, rfl, rfl, ?_, ?_, ?_⟩
    · rintro rfl; rfl
    · rintro rfl; rfl
    · rintro rfl; rfl
  · intro h
    rw [Waveguide.getCalculatedParams_of_evanescent fc kc mt f h]
    exact ⟨rfl, rfl, rfl, rfl, rfl⟩

/-- C3 (witness): concrete instantiation at `fc = 3 < f = 5` and `f = 2 ≤ fc = 3`. -/
theorem C3_calculated_params_witness :
    ((3 : ℝ) < 5 ∧
      (Waveguide.getCalculatedParams 3 1 .TE 5).phaseVelocity =
        CONSTANTS.c / Real.sqrt (1 - ((3 : ℝ) / 5) ^ 2))
    ∧ ((2 : ℝ) ≤ 3 ∧ (Waveguide.getCalculatedParams 3 1 .TE 2).phaseVelocity = 0) :=
  ⟨⟨by norm_num, ((C3_calculated_params 3 1 .TE 5).2.1 (by norm_num)).2.1⟩,
   ⟨by norm_num, ((C3_calculated_params 3 1 .TE 2).2.2 (by norm_num)).2.1⟩⟩

/-- C4: the shared default `propagationConstant` returns `β = √(k²-kc²)`
when `f > fc` and the attenuation constant `α = √(kc²-k²)` when `f ≤ fc`,
with `k = 2πf/c`. -/
theorem C4_propagation_constant (fc kc frequency : ℝ) :
    (fc < frequency →
      Waveguide.getPropagationConstant fc kc frequency =
        Real.sqrt ((2 * π * frequency / CONSTANTS.c) ^ 2 - kc ^ 2))
    ∧ (frequency ≤ fc →
      Waveguide.getPropagationConstant fc kc frequency =
        Real.sqrt (kc ^ 2 - (2 * π * frequency / CONSTANTS.c) ^ 2)) := by
  rw [Waveguide.getPropagationConstant]
  constructor
  · intro h
    rw [if_neg (not_le.mpr h)]
    rw [show (2*π*frequency/CONSTANTS.c)^2 - kc^2 =
      2*π*frequency/CONSTANTS.c*(2*π*frequency/CONSTANTS.c) - kc*kc by ring]
  · intro h
    rw [if_pos h]
    rw [show kc^2 - (2*π*frequency/CONSTANTS.c)^2 =
      kc*kc - 2*π*frequency/CONSTANTS.c*(2*π*frequency/CONSTANTS.c) by ring]

/-- C4 (witness): concrete instantiation in both regimes. -/
theorem C4_propagation_constant_witness :
    ((1 : ℝ) < 2 ∧
      Waveguide.getPropagationConstant 1 3 2 =
        Real.sqrt ((2 * π * 2 / CONSTANTS.c) ^ 2 - 3 ^ 2))
    ∧ ((2 : ℝ) ≤ 3 ∧
      Waveguide.getPropagationConstant 3 1 2 =
        Real.sqrt (1 ^ 2 - (2 * π * 2 / CONSTANTS.c) ^ 2)) :=
  ⟨⟨by norm_num, (C4_propagation_constant 1 3 2).1 (by norm_num)⟩,
   ⟨by norm_num, (C4_propagation_constant 3 1 2).2 (by norm_num)⟩⟩

/-- C5 (counterexample): the claim says the `CalculatedParams` bundle carries
the attenuation constant `α = √(kc²-k²)` in its propagation-constant field
when the mode is evanescent.  In fact at `fc = 1, kc = 1, f = 1/2`
(evanescent) the bundle's field is `0` while the separate
`propagationConstant` method returns a nonzero `α`. -/
theorem C5_counterexample :
    (Waveguide.getCalculatedParams 1 1 .TE (1/2)).propagationConstant = 0
    ∧ Waveguide.getPropagationConstant 1 1 (1/2) ≠ 0 := by
  constructor
  · rw [Waveguide.getCalculatedParams_of_evanescent 1 1 .TE (1/2) (by norm_num)]
  · rw [Waveguide.getPropagationConstant, if_pos (by norm_num : (1:ℝ)/2 ≤ 1)]
    have hc : (CONSTANTS.c : ℝ) = 299792458 := rfl
    have hπ := Real.pi_lt_d2
    have hπ0 := Real.pi_pos
    have h1 : 2 * π * (1/2) / CONSTANTS.c < 1 := by
      rw [hc]; nlinarith
    have h0 : 0 ≤ 2 * π * (1/2) / CONSTANTS.c := by
      rw [hc]; positivity
    have : (0:ℝ) < 1 * 1 - 2 * π * (1/2) / CONSTANTS.c * (2 * π * (1/2) / CONSTANTS.c) := by
      nlinarith
    positivity

/-- C5 (amended): when the mode is evanescent (`f ≤ fc`) the bundle's
propagation-constant field is left at zero; the attenuation constant
`α = √(kc²-k²)` is only returned by the separate `propagationConstant`
method. -/
theorem C5_evanescent_bundle (fc kc : ℝ) (mt : ModeType) (f : ℝ) (h : f ≤ fc) :
    (Waveguide.getCalculatedParams fc kc mt f).propagationConstant = 0
    ∧ Waveguide.getPropagationConstant fc kc f =
        Real.sqrt (kc ^ 2 - (2 * π * f / CONSTANTS.c) ^ 2) := by
  constructor
  · rw [Waveguide.getCalculatedParams_of_evanescent fc kc mt f h]
  · rw [Waveguide.getPropagationConstant, if_pos h]
    rw [show kc^2 - (2*π*f/CONSTANTS.c)^2 =
      kc*kc - 2*π*f/CONSTANTS.c*(2*π*f/CONSTANTS.c) by ring]

/-- C5 (witness): concrete instantiation at `fc = 1, kc = 1, f = 1/2`. -/
theorem C5_evanescent_bundle_witness :
    (1/2 : ℝ) ≤ 1 ∧
      ((Waveguide.getCalculatedParams 1 1 .TE (1/2)).propagationConstant = 0
      ∧ Waveguide.getPropagationConstant 1 1 (1/2) =
          Real.sqrt (1 ^ 2 - (2 * π * (1/2) / CONSTANTS.c) ^ 2)) :=
  ⟨by norm_num, C5_evanescent_bundle 1 1 .TE (1/2) (by norm_num)⟩

/-- C6: for every (validly constructed) coaxial waveguide, the TEM mode's
cutoff frequency is exactly 0, and `calculatedParams` reports
`isPropagating = true` for every frequency > 0. -/
theorem C6_coax_tem (a b : ℝ) (ha : 0 < a) (hab : a < b) (f : ℝ) (hf : 0 < f) :
    CoaxialWaveguide.create a b = .ok { innerRadius := a, outerRadius := b }
    ∧ CoaxialWaveguide.getCutoffFrequency { innerRadius := a, outerRadius := b }
        { type := .TEM, m := 0, n := 0 } = 0
    ∧ (CoaxialWaveguide.getCalculatedParams { innerRadius := a, outerRadius := b } f
        { type := .TEM, m := 0, n := 0 }).isPropagatif = true := by
  refine ⟨?_, rfl, ?_⟩
  · rw [CoaxialWaveguide.create, if_neg (by linarith), if_neg (by linarith),
      if_neg (by simp; linarith)]
  · rw [CoaxialWaveguide.getCalculatedParams, Waveguide.isPropagatif_eq]
    simpa [CoaxialWaveguide.getCutoffFrequency] using hf

theorem rect_cutoff_TE10 (g : RectangularWaveguide) (ha : 0 < g.a) :
    g.getCutoffFrequency { type := .TE, m := 1, n := 0 } = CONSTANTS.c / (2 * g.a) := by
  rw [RectangularWaveguide.getCutoffFrequency, RectangularWaveguide.getCutoffWavenumber]
  simp only [Nat.cast_one, Nat.cast_zero]
  rw [show (1 * π / g.a) ^ 2 + (0 * π / g.b) ^ 2 = (π / g.a) ^ 2 by ring]
  rw [Real.sqrt_sq (by positivity)]
  field_simp [ha.ne']
  ring

/-- C7: for a rectangular waveguide, every mode and every frequency above
the mode's cutoff, the phase and group velocities reported by
`calculatedParams` satisfy `vp · vg = c²` exactly (over the reals). -/
theorem C7_dispersion_relation (g : RectangularWaveguide) (mode : Mode) (f : ℝ)
    (h : g.getCutoffFrequency mode < f) :
    (g.getCalculatedParams f mode).phaseVelocity *
      (g.getCalculatedParams f mode).groupVelocity = CONSTANTS.c ^ 2 := by
  have hfc0 : 0 ≤ g.getCutoffFrequency mode := by
    rw [RectangularWaveguide.getCutoffFrequency, RectangularWaveguide.getCutoffWavenumber,
      CONSTANTS.c]
    positivity
  have hf0 : 0 < f := lt_of_le_of_lt hfc0 h
  have hlt : (g.getCutoffFrequency mode / f) ^ 2 < 1 := by
    have h1 : g.getCutoffFrequency mode / f < 1 := (div_lt_one hf0).mpr h
    have h2 : 0 ≤ g.getCutoffFrequency mode / f := div_nonneg hfc0 hf0.le
    nlinarith
  have hs : 0 < Real.sqrt (1 - (g.getCutoffFrequency mode / f) ^ 2) :=
    Real.sqrt_pos.mpr (by linarith)
  rw [RectangularWaveguide.getCalculatedParams,
    Waveguide.getCalculatedParams_of_propagating _ _ _ _ h]
  have hcalc : ∀ s : ℝ, s ≠ 0 → CONSTANTS.c / s * (CONSTANTS.c * s) = CONSTANTS.c ^ 2 := by
    intro s hsne
    field_simp [hsne]
    ring
  exact hcalc _ hs.ne'

/-- C7 (witness): square guide `a = b = 1` m, mode TE₁₀ (cutoff `c/2` ≈ 150
MHz) at `f = 200` MHz. -/
theorem C7_dispersion_relation_witness :
    RectangularWaveguide.getCutoffFrequency { a := 1, b := 1 }
      { type := .TE, m := 1, n := 0 } < 2e8
    ∧ (RectangularWaveguide.getCalculatedParams { a := 1, b := 1 } 2e8
        { type := .TE, m := 1, n := 0 }).phaseVelocity *
      (RectangularWaveguide.getCalculatedParams { a := 1, b := 1 } 2e8
        { type := .TE, m := 1, n := 0 }).groupVelocity = CONSTANTS.c ^ 2 := by
  have hfc : RectangularWaveguide.getCutoffFrequency { a := 1, b := 1 }
      { type := .TE, m := 1, n := 0 } < 2e8 := by
    rw [rect_cutoff_TE10 _ (by norm_num)]
    rw [CONSTANTS.c]
    norm_num
  exact ⟨hfc, C7_dispersion_relation _ _ _ hfc⟩

/-- C6 (witness): concrete coaxial guide `a = 1, b = 2` at `f = 5`. -/
theorem C6_coax_tem_witness :
    ((0 : ℝ) < 1 ∧ (1 : ℝ) < 2 ∧ (0 : ℝ) < 5) ∧
      (CoaxialWaveguide.getCalculatedParams { innerRadius := 1, outerRadius := 2 } 5
        { type := .TEM, m := 0, n := 0 }).isPropagatif = true :=
  ⟨⟨by norm_num, by norm_num, by norm_num⟩,
    (C6_coax_tem 1 2 (by norm_num) (by norm_num) 5 (by norm_num)).2.2⟩

/-- C2 (counterexample): the claim quantifies over every mode, but the
circular guide computes its parameter bundle — including the Bessel-zero
lookup — before the domain check, so for the unsupported mode TE with
radial index `m = 0` the lookup throws (modelled as `none`) even though the
query point `(2, 0, 0)` lies outside the radius-1 cross-section, instead of
returning the all-zero field vector. -/
theorem C2_counterexample :
    CircularWaveguide.getFieldDistribution { radius := 1 } 2 0 0
      { type := .TE, m := 0, n := 0 } 1 0 = none := by
  simp [CircularWaveguide.getFieldDistribution, CircularWaveguide.getCalculatedParams,
    CircularWaveguide.getCutoffFrequency, CircularWaveguide.getCutoffWavenumber,
    getBesselJPrimeZero]

/-- C2 (amended): restricted to queries whose Bessel-zero lookup succeeds
(automatic for rectangular and coaxial; radial index ≥ 1 for circular
TE/TM): the field is all-zero outside the cross-section for all three
geometries, all-zero whenever the mode is evanescent (`f ≤ fc`) for the
rectangular and circular guides and for coaxial TE/TM, while the coaxial
TEM mode is never zeroed for evanescence — for every in-domain point it
returns the TEM field expression regardless of frequency. -/
theorem C2_zero_field :
    (∀ (g : RectangularWaveguide) (x y z : ℝ) (mode : Mode) (f t : ℝ),
      (x + g.a / 2 < 0 ∨ x + g.a / 2 > g.a ∨ y + g.b / 2 < 0 ∨ y + g.b / 2 > g.b) →
      g.getFieldDistribution x y z mode f t = zeroFieldVector)
    ∧ (∀ (g : RectangularWaveguide) (x y z : ℝ) (mode : Mode) (f t : ℝ),
      f ≤ g.getCutoffFrequency mode →
      g.getFieldDistribution x y z mode f t = zeroFieldVector)
    ∧ (∀ (g : CircularWaveguide) (x y z : ℝ) (mode : Mode) (f t : ℝ) (kcv : ℝ),
      g.getCutoffWavenumber mode = some kcv →
      (Real.sqrt (x * x + y * y) > g.radius →
        g.getFieldDistribution x y z mode f t = some zeroFieldVector)
      ∧ (f ≤ CONSTANTS.c * kcv / (2 * π) →
        g.getFieldDistribution x y z mode f t = some zeroFieldVector))
    ∧ (∀ (g : CoaxialWaveguide) (x y z : ℝ) (mode : Mode) (f t : ℝ),
      (Real.sqrt (x * x + y * y) < g.innerRadius ∨
        Real.sqrt (x * x + y * y) > g.outerRadius) →
      g.getFieldDistribution x y z mode f t = zeroFieldVector)
    ∧ (∀ (g : CoaxialWaveguide) (x y z : ℝ) (mode : Mode) (f t : ℝ),
      (mode.type = .TE ∨ mode.type = .TM) → f ≤ g.getCutoffFrequency mode →
      g.getFieldDistribution x y z mode f t = zeroFieldVector)
    ∧ (∀ (g : CoaxialWaveguide) (x y z : ℝ) (mm nn : ℕ) (f t : ℝ),
      ¬(Real.sqrt (x * x + y * y) < g.innerRadius ∨
        Real.sqrt (x * x + y * y) > g.outerRadius) →
      g.getFieldDistribution x y z { type := .TEM, m := mm, n := nn } f t =
        g.getTEMFieldDistribution (Real.sqrt (x * x + y * y)) x y
          (Real.cos (t - 2 * π * f / CONSTANTS.c * z))) := by
  refine ⟨?_, ?_, ?_, ?_, ?_, ?_⟩
  · intro g x y z mode f t hout
    simp only [RectangularWaveguide.getFieldDistribution]
    rw [if_pos hout]
  · intro g x y z mode f t hev
    simp only [RectangularWaveguide.getFieldDistribution]
    by_cases hout : x + g.a / 2 < 0 ∨ x + g.a / 2 > g.a ∨ y + g.b / 2 < 0 ∨ y + g.b / 2 > g.b
    · rw [if_pos hout]
    · rw [if_neg hout]
      have hp : (g.getCalculatedParams f mode).isPropagatif = false := by
        rw [RectangularWaveguide.getCalculatedParams, Waveguide.isPropagatif_eq]
        exact decide_eq_false (not_lt.mpr hev)
      simp [hp]
  · intro g x y z mode f t kcv hkc
    have hfc : g.getCutoffFrequency mode = some (CONSTANTS.c * kcv / (2 * π)) := by
      rw [CircularWaveguide.getCutoffFrequency, hkc]
      rfl
    have hparams : g.getCalculatedParams f mode =
        some (Waveguide.getCalculatedParams (CONSTANTS.c * kcv / (2 * π)) kcv
          mode.type f) := by
      rw [CircularWaveguide.getCalculatedParams, hfc, hkc]
      rfl
    constructor
    · intro hrho
      simp only [CircularWaveguide.getFieldDistribution, hparams, Option.bind_eq_bind', Option.some_bind]
      rw [if_pos hrho]
      rfl
    · intro hev
      simp only [CircularWaveguide.getFieldDistribution, hparams, Option.bind_eq_bind', Option.some_bind]
      by_cases hrho : Real.sqrt (x * x + y * y) > g.radius
      · rw [if_pos hrho]
        rfl
      · rw [if_neg hrho]
        have hp : (Waveguide.getCalculatedParams (CONSTANTS.c * kcv / (2 * π)) kcv
            mode.type f).isPropagatif = false := by
          rw [Waveguide.isPropagatif_eq]
          exact decide_eq_false (not_lt.mpr hev)
        simp [hp]
  · intro g x y z mode f t hout
    simp only [CoaxialWaveguide.getFieldDistribution]
    rw [if_pos hout]
  · intro g x y z mode f t htype hev
    simp only [CoaxialWaveguide.getFieldDistribution]
    by_cases hout : Real.sqrt (x * x + y * y) < g.innerRadius ∨
      Real.sqrt (x * x + y * y) > g.outerRadius
    · rw [if_pos hout]
    · rw [if_neg hout]
      have hne : mode.type ≠ ModeType.TEM := by
        rcases htype with h | h <;> rw [h] <;> intro hh <;> exact ModeType.noConfusion hh
      have hp : (g.getCalculatedParams f mode).isPropagatif = false := by
        rw [CoaxialWaveguide.getCalculatedParams, Waveguide.isPropagatif_eq]
        exact decide_eq_false (not_lt.mpr hev)
      rw [if_pos ⟨hne, by simp [hp]⟩]
  · intro g x y z mm nn f t hin
    simp only [CoaxialWaveguide.getFieldDistribution]
    rw [if_neg hin]
    rw [if_neg (by simp)]
    simp

/-- C2 (witness): concrete instantiations of every conjunct of the amended
zero-field theorem. -/
theorem C2_zero_field_witness :
    RectangularWaveguide.getFieldDistribution { a := 2, b := 1 } 10 0 0
      { type := .TE, m := 1, n := 0 } 1 0 = zeroFieldVector
    ∧ RectangularWaveguide.getFieldDistribution { a := 1, b := 1 } 0 0 0
      { type := .TE, m := 1, n := 0 } 1 0 = zeroFieldVector
    ∧ CircularWaveguide.getFieldDistribution { radius := 1 } 2 0 0
      { type := .TM, m := 1, n := 0 } 1 0 = some zeroFieldVector
    ∧ CircularWaveguide.getFieldDistribution { radius := 1 } 0 0 0
      { type := .TM, m := 1, n := 0 } 1 0 = some zeroFieldVector
    ∧ CoaxialWaveguide.getFieldDistribution { innerRadius := 1, outerRadius := 2 } 3 0 0
      { type := .TEM, m := 0, n := 0 } 1 0 = zeroFieldVector
    ∧ CoaxialWaveguide.getFieldDistribution { innerRadius := 1, outerRadius := 2 } (3/2) 0 0
      { type := .TE, m := 1, n := 0 } 1 0 = zeroFieldVector
    ∧ CoaxialWaveguide.getFieldDistribution { innerRadius := 1, outerRadius := 2 } (3/2) 0 0
      { type := .TEM, m := 0, n := 0 } 5 7 =
      CoaxialWaveguide.getTEMFieldDistribution { innerRadius := 1, outerRadius := 2 }
        (Real.sqrt ((3/2) * (3/2) + 0 * 0)) (3/2) 0
        (Real.cos (7 - 2 * π * 5 / CONSTANTS.c * 0)) := by
  have hkcTM : CircularWaveguide.getCutoffWavenumber { radius := 1 }
      { type := .TM, m := 1, n := 0 } = some (2.4048 / 1) := by
    simp [CircularWaveguide.getCutoffWavenumber, getBesselJZero, besselJZeroVal,
      BESSEL_J_ZEROS]
  have hsqrt2 : Real.sqrt ((2:ℝ) * 2 + 0 * 0) = 2 := by
    rw [show (2:ℝ) * 2 + 0 * 0 = 2 ^ 2 by norm_num, Real.sqrt_sq (by norm_num)]
  have hsqrt3 : Real.sqrt ((3:ℝ) * 3 + 0 * 0) = 3 := by
    rw [show (3:ℝ) * 3 + 0 * 0 = 3 ^ 2 by norm_num, Real.sqrt_sq (by norm_num)]
  have hsqrt32 : Real.sqrt ((3/2:ℝ) * (3/2) + 0 * 0) = 3/2 := by
    rw [show (3/2:ℝ) * (3/2) + 0 * 0 = (3/2) ^ 2 by norm_num, Real.sqrt_sq (by norm_num)]
  have hcoaxfc : CoaxialWaveguide.getCutoffFrequency { innerRadius := 1, outerRadius := 2 }
      { type := .TE, m := 1, n := 0 } = CONSTANTS.c / 2 := by
    rw [CoaxialWaveguide.getCutoffFrequency, CoaxialWaveguide.getCutoffWavenumber]
    norm_num
    rw [div_eq_div_iff (by positivity) (by norm_num)]
    ring
  refine ⟨?_, ?_, ?_, ?_, ?_, ?_, ?_⟩
  · exact C2_zero_field.1 _ 10 0 0 _ 1 0 (by norm_num)
  · refine C2_zero_field.2.1 _ 0 0 0 _ 1 0 ?_
    rw [rect_cutoff_TE10 _ (by norm_num), CONSTANTS.c]
    norm_num
  · exact ((C2_zero_field.2.2.1 _ 2 0 0 _ 1 0 _ hkcTM).1) (by rw [hsqrt2]; norm_num)
  · refine ((C2_zero_field.2.2.1 _ 0 0 0 _ 1 0 _ hkcTM).2) ?_
    have h4 := Real.pi_lt_four
    have h0 := Real.pi_pos
    rw [CONSTANTS.c, le_div_iff₀ (by positivity)]
    nlinarith
  · exact C2_zero_field.2.2.2.1 _ 3 0 0 _ 1 0 (by rw [hsqrt3]; norm_num)
  · refine C2_zero_field.2.2.2.2.1 _ (3/2) 0 0 _ 1 0 (Or.inl rfl) ?_
    rw [hcoaxfc, CONSTANTS.c]
    norm_num
  · exact C2_zero_field.2.2.2.2.2 _ (3/2) 0 0 0 0 5 7 (by rw [hsqrt32]; norm_num)

theorem rect_availableModes_sorted (g : RectangularWaveguide) :
    List.Sorted (fun p q => g.getCutoffFrequency p ≤ g.getCutoffFrequency q)
      g.getAvailableModes := by
  rw [RectangularWaveguide.getAvailableModes]
  haveI : IsTotal Mode fun p q => g.getCutoffFrequency p ≤ g.getCutoffFrequency q :=
    ⟨fun a b => le_total _ _⟩
  haveI : IsTrans Mode fun p q => g.getCutoffFrequency p ≤ g.getCutoffFrequency q :=
    ⟨fun a b c hab hbc => le_trans hab hbc⟩
  exact List.sorted_insertionSort _ _

theorem circ_availableModes_sorted (g : CircularWaveguide) :
    List.Sorted (fun p q => g.cutoffFrequencyVal p ≤ g.cutoffFrequencyVal q)
      g.getAvailableModes := by
  rw [CircularWaveguide.getAvailableModes]
  haveI : IsTotal Mode fun p q => g.cutoffFrequencyVal p ≤ g.cutoffFrequencyVal q :=
    ⟨fun a b => le_total _ _⟩
  haveI : IsTrans Mode fun p q => g.cutoffFrequencyVal p ≤ g.cutoffFrequencyVal q :=
    ⟨fun a b c hab hbc => le_trans hab hbc⟩
  exact List.sorted_insertionSort _ _

theorem circ_baseModes_cutoff_some (g : CircularWaveguide) (mode : Mode)
    (hm : mode ∈ CircularWaveguide.baseModes) :
    g.getCutoffFrequency mode = some (g.cutoffFrequencyVal mode) := by
  have hforall : CircularWaveguide.baseModes.Forall
      (fun mode => 1 ≤ mode.m ∧ (mode.type = .TE ∨ mode.type = .TM)) := by decide
  obtain ⟨hm1, hty⟩ := List.forall_iff_forall_mem.mp hforall mode hm
  rcases hty with hty | hty <;>
  · simp only [CircularWaveguide.getCutoffFrequency, CircularWaveguide.getCutoffWavenumber,
      CircularWaveguide.cutoffFrequencyVal, CircularWaveguide.cutoffWavenumberVal, hty,
      getBesselJPrimeZero, getBesselJZero]
    rw [if_neg (by omega)]
    rfl

theorem coax_availableModes_sorted (g : CoaxialWaveguide) :
    List.Sorted (fun p q => g.getCutoffFrequency p ≤ g.getCutoffFrequency q)
      g.getAvailableModes := by
  rw [CoaxialWaveguide.getAvailableModes]
  haveI : IsTotal Mode fun p q => g.getCutoffFrequency p ≤ g.getCutoffFrequency q :=
    ⟨fun a b => le_total _ _⟩
  haveI : IsTrans Mode fun p q => g.getCutoffFrequency p ≤ g.getCutoffFrequency q :=
    ⟨fun a b c hab hbc => le_trans hab hbc⟩
  exact List.sorted_insertionSort _ _

/-- C8: for each geometry, the mode list returned by `availableModes()` is
sorted non-decreasing by cutoff frequency (for the circular guide the
comparator value is stated through the total-function variant
`cutoffFrequencyVal`, which the third conjunct proves equal to the partial
`getCutoffFrequency` on every enumerated mode). -/
theorem C8_available_modes_sorted :
    (∀ g : RectangularWaveguide,
      List.Sorted (fun p q => g.getCutoffFrequency p ≤ g.getCutoffFrequency q)
        g.getAvailableModes)
    ∧ (∀ g : CircularWaveguide,
      List.Sorted (fun p q => g.cutoffFrequencyVal p ≤ g.cutoffFrequencyVal q)
        g.getAvailableModes)
    ∧ (∀ (g : CircularWaveguide), ∀ mode ∈ CircularWaveguide.baseModes,
      g.getCutoffFrequency mode = some (g.cutoffFrequencyVal mode))
    ∧ (∀ g : CoaxialWaveguide,
      List.Sorted (fun p q => g.getCutoffFrequency p ≤ g.getCutoffFrequency q)
        g.getAvailableModes) :=
  ⟨rect_availableModes_sorted, circ_availableModes_sorted,
    circ_baseModes_cutoff_some, coax_availableModes_sorted⟩

/-- C8 (witness): instantiation of the membership-hypothesis conjunct at the
dominant circular mode TE₁₁ (azimuthal n = 1, radial m = 1) on a radius-1
guide. -/
theorem C8_available_modes_sorted_witness :
    { type := ModeType.TE, m := 1, n := 1 } ∈ CircularWaveguide.baseModes
    ∧ CircularWaveguide.getCutoffFrequency { radius := 1 }
        { type := .TE, m := 1, n := 1 } =
      some (CircularWaveguide.cutoffFrequencyVal { radius := 1 }
        { type := .TE, m := 1, n := 1 }) :=
  ⟨by decide, C8_available_modes_sorted.2.2.1 { radius := 1 }
    { type := .TE, m := 1, n := 1 } (by decide)⟩

theorem rect_baseModes_classify :
    RectangularWaveguide.baseModes.Forall
      (fun mode => mode = { type := ModeType.TE, m := 1, n := 0 }
        ∨ 1 ≤ mode.n ∨ (mode.n = 0 ∧ 2 ≤ mode.m)) := by decide

theorem rect_cutoff_TE10_lt (g : RectangularWaveguide) (ha : 0 < g.a) (hb : 0 < g.b)
    (hba : g.b < g.a) (mode : Mode) (h : 1 ≤ mode.n ∨ (mode.n = 0 ∧ 2 ≤ mode.m)) :
    g.getCutoffFrequency { type := .TE, m := 1, n := 0 } < g.getCutoffFrequency mode := by
  have hc : (0:ℝ) < CONSTANTS.c := by rw [CONSTANTS.c]; norm_num
  have hkc : π / g.a < g.getCutoffWavenumber mode := by
    rw [RectangularWaveguide.getCutoffWavenumber]
    rcases h with hn | ⟨hn0, hm2⟩
    · have hn1 : (1:ℝ) ≤ (mode.n : ℝ) := by exact_mod_cast hn
      have h1 : (mode.n : ℝ) * π / g.b ≤
          Real.sqrt (((mode.m : ℝ) * π / g.a) ^ 2 + ((mode.n : ℝ) * π / g.b) ^ 2) := by
        rw [Real.le_sqrt (by positivity) (by positivity)]
        nlinarith [sq_nonneg ((mode.m : ℝ) * π / g.a)]
      have h2 : π / g.a < (mode.n : ℝ) * π / g.b := by
        rw [div_lt_div_iff₀ ha hb]
        have k1 : π * g.b < π * g.a := mul_lt_mul_of_pos_left hba Real.pi_pos
        have k2 : 1 * (π * g.a) ≤ (mode.n : ℝ) * (π * g.a) :=
          mul_le_mul_of_nonneg_right hn1 (by positivity)
        nlinarith [k1, k2]
      linarith
    · have hm2' : (2:ℝ) ≤ (mode.m : ℝ) := by exact_mod_cast hm2
      rw [hn0]
      simp only [Nat.cast_zero, zero_mul, zero_div]
      rw [show ((mode.m : ℝ) * π / g.a) ^ 2 + (0:ℝ) ^ 2 = ((mode.m : ℝ) * π / g.a) ^ 2 by
        ring]
      rw [Real.sqrt_sq (by positivity)]
      rw [div_lt_div_iff₀ ha ha]
      have k1 : 2 * (π * g.a) ≤ (mode.m : ℝ) * (π * g.a) :=
        mul_le_mul_of_nonneg_right hm2' (by positivity)
      have k2 : 0 < π * g.a := by positivity
      nlinarith [k1, k2]
  rw [rect_cutoff_TE10 g ha, RectangularWaveguide.getCutoffFrequency]
  rw [show CONSTANTS.c / (2 * g.a) = CONSTANTS.c * (π / g.a) / (2 * π) from by
    field_simp [ha.ne']
    ring]
  gcongr

/-- C9: for the WR-90 rectangular guide (a = 0.02286 m, b = 0.01016 m): the
constructor accepts the dimensions unchanged, the TE₁₀ cutoff equals
`c/(2a)` exactly and lies within ±0.5% of 6.557 GHz, TE₁₀ has the smallest
cutoff of every mode enumerated by `availableModes()`, and TE₁₀ is the
first element of the returned (sorted) list. -/
theorem C9_wr90_te10 :
    RectangularWaveguide.create 0.02286 0.01016 =
      .ok { a := 0.02286, b := 0.01016 }
    ∧ RectangularWaveguide.getCutoffFrequency { a := 0.02286, b := 0.01016 }
        { type := .TE, m := 1, n := 0 } = CONSTANTS.c / (2 * 0.02286)
    ∧ |RectangularWaveguide.getCutoffFrequency { a := 0.02286, b := 0.01016 }
        { type := .TE, m := 1, n := 0 } - 6.557e9| ≤ 0.005 * 6.557e9
    ∧ (∀ mode ∈ RectangularWaveguide.getAvailableModes { a := 0.02286, b := 0.01016 },
        RectangularWaveguide.getCutoffFrequency { a := 0.02286, b := 0.01016 }
            { type := .TE, m := 1, n := 0 } ≤
          RectangularWaveguide.getCutoffFrequency { a := 0.02286, b := 0.01016 } mode)
    ∧ (RectangularWaveguide.getAvailableModes { a := 0.02286, b := 0.01016 }).head? =
        some { type := .TE, m := 1, n := 0 } := by
  have ha : (0:ℝ) < ({ a := 0.02286, b := 0.01016 } : RectangularWaveguide).a := by norm_num
  have hb : (0:ℝ) < ({ a := 0.02286, b := 0.01016 } : RectangularWaveguide).b := by norm_num
  have hba : ({ a := 0.02286, b := 0.01016 } : RectangularWaveguide).b <
      ({ a := 0.02286, b := 0.01016 } : RectangularWaveguide).a := by norm_num
  have hmin : ∀ mode ∈ RectangularWaveguide.baseModes,
      RectangularWaveguide.getCutoffFrequency { a := 0.02286, b := 0.01016 }
          { type := .TE, m := 1, n := 0 } ≤
        RectangularWaveguide.getCutoffFrequency { a := 0.02286, b := 0.01016 } mode := by
    intro mode hm
    rcases List.forall_iff_forall_mem.mp rect_baseModes_classify mode hm with heq | hstrict
    · rw [heq]
    · exact le_of_lt (rect_cutoff_TE10_lt _ ha hb hba mode hstrict)
  have hstrictmin : ∀ mode ∈ RectangularWaveguide.baseModes,
      mode ≠ { type := .TE, m := 1, n := 0 } →
      RectangularWaveguide.getCutoffFrequency { a := 0.02286, b := 0.01016 }
          { type := .TE, m := 1, n := 0 } <
        RectangularWaveguide.getCutoffFrequency { a := 0.02286, b := 0.01016 } mode := by
    intro mode hm hne
    rcases List.forall_iff_forall_mem.mp rect_baseModes_classify mode hm with heq | hstrict
    · exact absurd heq hne
    · exact rect_cutoff_TE10_lt _ ha hb hba mode hstrict
  refine ⟨?_, rect_cutoff_TE10 _ ha, ?_, ?_, ?_⟩
  · rw [RectangularWaveguide.create, if_neg (by norm_num), if_neg (by norm_num)]
    rw [max_eq_left (by norm_num : (0.01016:ℝ) ≤ 0.02286),
      min_eq_right (by norm_num : (0.01016:ℝ) ≤ 0.02286)]
  · rw [rect_cutoff_TE10 _ ha, CONSTANTS.c, abs_le]
    constructor <;> norm_num
  · intro mode hm
    rw [RectangularWaveguide.getAvailableModes] at hm
    exact hmin mode ((List.mem_insertionSort _).mp hm)
  · have hTE10 : { type := ModeType.TE, m := 1, n := 0 } ∈
        RectangularWaveguide.getAvailableModes { a := 0.02286, b := 0.01016 } := by
      rw [RectangularWaveguide.getAvailableModes]
      exact (List.mem_insertionSort _).mpr (by decide)
    have hsorted := rect_availableModes_sorted ({ a := 0.02286, b := 0.01016 } :
      RectangularWaveguide)
    rcases hL : RectangularWaveguide.getAvailableModes { a := 0.02286, b := 0.01016 } with
      _ | ⟨hd, tl⟩
    · rw [hL] at hTE10
      exact absurd hTE10 (List.not_mem_nil _)
    · rw [hL] at hTE10 hsorted
      have hhd : hd ∈ RectangularWaveguide.baseModes := by
        have : hd ∈ RectangularWaveguide.getAvailableModes { a := 0.02286, b := 0.01016 } := by
          rw [hL]; exact List.mem_cons_self _ _
        rw [RectangularWaveguide.getAvailableModes] at this
        exact (List.mem_insertionSort _).mp this
      have hle : RectangularWaveguide.getCutoffFrequency { a := 0.02286, b := 0.01016 } hd ≤
          RectangularWaveguide.getCutoffFrequency { a := 0.02286, b := 0.01016 }
            { type := .TE, m := 1, n := 0 } := by
        rcases List.mem_cons.mp hTE10 with heq | htl
        · rw [heq]
        · exact (List.sorted_cons.mp hsorted).1 _ htl
      by_cases heq : hd = { type := ModeType.TE, m := 1, n := 0 }
      · rw [heq]
        rfl
      · exact absurd hle (not_le.mpr (hstrictmin hd hhd heq))

/-- C9 (witness): instantiation of the minimality conjunct at the TE₀₁ mode,
whose membership in the sorted list is discharged concretely. -/
theorem C9_wr90_te10_witness :
    { type := ModeType.TE, m := 0, n := 1 } ∈
      RectangularWaveguide.getAvailableModes { a := 0.02286, b := 0.01016 }
    ∧ RectangularWaveguide.getCutoffFrequency { a := 0.02286, b := 0.01016 }
        { type := .TE, m := 1, n := 0 } ≤
      RectangularWaveguide.getCutoffFrequency { a := 0.02286, b := 0.01016 }
        { type := .TE, m := 0, n := 1 } := by
  have hmem : { type := ModeType.TE, m := 0, n := 1 } ∈
      RectangularWaveguide.getAvailableModes { a := 0.02286, b := 0.01016 } := by
    rw [RectangularWaveguide.getAvailableModes]
    exact (List.mem_insertionSort _).mpr (by decide)
  exact ⟨hmem, C9_wr90_te10.2.2.2.1 _ hmem⟩

theorem circ_TE_Hz (g : CircularWaveguide) (rho phi x y : ℝ) (n p : ℕ)
    (kc beta omega pf chi : ℝ) :
    (g.getTEFieldDistribution rho phi x y n p kc beta omega pf chi).H.z =
      besselJ n (kc * rho) *
        (1 / (if |besselJ n chi| > 1e-10 then besselJ n chi else 1)) *
        Real.cos ((n : ℝ) * phi) * pf * (1 / (omega * CONSTANTS.mu0 / beta * kc)) := by
  rw [CircularWaveguide.getTEFieldDistribution]

/-- C10: the three `getFieldDistribution` implementations are inconsistent
about the `time` argument: the rectangular and coaxial guides use
`cos(time - β·z)` (so their output is `2π`-periodic in `time`, a phase in
radians, independent of frequency), whereas the circular guide uses
`cos(2π·f·time - β·z)` (so its output is `1/f`-periodic in `time`, seconds);
consequently, at a concrete in-domain propagating input (radius-1 guide,
TE₀₁-family mode n = 0, m = 1, f = 10⁹ Hz, time 1/(2·10⁹), center point)
the circular guide's sample differs from the `cos(time - β·z)` convention
of the other two geometries. -/
theorem C10_time_convention :
    (∀ (g : RectangularWaveguide) (x y z : ℝ) (mode : Mode) (f t : ℝ),
      g.getFieldDistribution x y z mode f (t + 2 * π) =
        g.getFieldDistribution x y z mode f t)
    ∧ (∀ (g : CoaxialWaveguide) (x y z : ℝ) (mode : Mode) (f t : ℝ),
      g.getFieldDistribution x y z mode f (t + 2 * π) =
        g.getFieldDistribution x y z mode f t)
    ∧ (∀ (g : CircularWaveguide) (x y z : ℝ) (mode : Mode) (f t : ℝ), f ≠ 0 →
      g.getFieldDistribution x y z mode f (t + 1 / f) =
        g.getFieldDistribution x y z mode f t)
    ∧ CircularWaveguide.getFieldDistribution { radius := 1 } 0 0 0
        { type := .TE, m := 1, n := 0 } 1e9 (1 / (2 * 1e9)) ≠
      CircularWaveguide.getFieldDistributionTimeAsPhase { radius := 1 } 0 0 0
        { type := .TE, m := 1, n := 0 } 1e9 (1 / (2 * 1e9)) := by
  refine ⟨?_, ?_, ?_, ?_⟩
  · intro g x y z mode f t
    have hcos : ∀ b : ℝ, Real.cos (t + 2 * π - b) = Real.cos (t - b) := by
      intro b
      rw [show t + 2 * π - b = t - b + 2 * π by ring, Real.cos_add_two_pi]
    simp only [RectangularWaveguide.getFieldDistribution, hcos]
  · intro g x y z mode f t
    have hcos : ∀ b : ℝ, Real.cos (t + 2 * π - b) = Real.cos (t - b) := by
      intro b
      rw [show t + 2 * π - b = t - b + 2 * π by ring, Real.cos_add_two_pi]
    simp only [CoaxialWaveguide.getFieldDistribution, hcos]
  · intro g x y z mode f t hf
    have hcos : ∀ b : ℝ, Real.cos (2 * π * f * (t + 1 / f) - b) =
        Real.cos (2 * π * f * t - b) := by
      intro b
      rw [show 2 * π * f * (t + 1 / f) - b = 2 * π * f * t - b + 2 * π by
        rw [mul_add, show 2 * π * f * (1 / f) = 2 * π by field_simp]
        ring]
      exact Real.cos_add_two_pi _
    simp only [CircularWaveguide.getFieldDistribution, hcos]
  · have hchi : getBesselJPrimeZero 0 1 = some 3.8317 := rfl
    have hkc : CircularWaveguide.getCutoffWavenumber { radius := 1 }
        { type := .TE, m := 1, n := 0 } = some (3.8317 / 1) := rfl
    have hfc : CircularWaveguide.getCutoffFrequency { radius := 1 }
        { type := .TE, m := 1, n := 0 } =
        some (CONSTANTS.c * (3.8317 / 1) / (2 * π)) := rfl
    have hprop : CONSTANTS.c * (3.8317 / 1) / (2 * π) < 1e9 := by
      rw [CONSTANTS.c, div_lt_iff₀ (by positivity)]
      nlinarith [Real.pi_gt_three]
    have hparams : CircularWaveguide.getCalculatedParams { radius := 1 } 1e9
        { type := .TE, m := 1, n := 0 } =
        some (Waveguide.getCalculatedParams (CONSTANTS.c * (3.8317 / 1) / (2 * π))
          (3.8317 / 1) .TE 1e9) := by
      rw [CircularWaveguide.getCalculatedParams, hfc, hkc]
      rfl
    have hrec := Waveguide.getCalculatedParams_of_propagating
      (CONSTANTS.c * (3.8317 / 1) / (2 * π)) (3.8317 / 1) .TE 1e9 hprop
    have hrho0 : Real.sqrt ((0:ℝ) * 0 + 0 * 0) = 0 := by
      rw [show (0:ℝ) * 0 + 0 * 0 = 0 by norm_num, Real.sqrt_zero]
    -- the propagation constant of the bundle, abbreviated
    set B : ℝ := Real.sqrt (2 * π * 1e9 / CONSTANTS.c * (2 * π * 1e9 / CONSTANTS.c) -
      3.8317 / 1 * (3.8317 / 1)) with hB
    have hBpos : 0 < B := by
      rw [hB]
      apply Real.sqrt_pos.mpr
      have hk : (3.8317 : ℝ) / 1 < 2 * π * 1e9 / CONSTANTS.c := by
        rw [CONSTANTS.c, lt_div_iff₀ (by norm_num)]
        nlinarith [Real.pi_gt_three]
      have hk0 : (0:ℝ) < 3.8317 / 1 := by norm_num
      nlinarith [hk, hk0]
    have hLHS : CircularWaveguide.getFieldDistribution { radius := 1 } 0 0 0
        { type := .TE, m := 1, n := 0 } 1e9 (1 / (2 * 1e9)) =
        some (CircularWaveguide.getTEFieldDistribution { radius := 1 } 0 (atan2 0 0) 0 0
          0 1 (3.8317 / 1) B (2 * π * 1e9)
          (Real.cos (2 * π * 1e9 * (1 / (2 * 1e9)) - B * 0)) 3.8317) := by
      rw [CircularWaveguide.getFieldDistribution, hparams, hrec]
      simp only [Option.bind_eq_bind', Option.some_bind, hrho0]
      rw [if_neg (by norm_num), if_neg (by norm_num)]
      rw [hkc]
      simp only [Option.bind_eq_bind', Option.some_bind, hchi]
      rfl
    have hRHS : CircularWaveguide.getFieldDistributionTimeAsPhase { radius := 1 } 0 0 0
        { type := .TE, m := 1, n := 0 } 1e9 (1 / (2 * 1e9)) =
        some (CircularWaveguide.getTEFieldDistribution { radius := 1 } 0 (atan2 0 0) 0 0
          0 1 (3.8317 / 1) B (2 * π * 1e9)
          (Real.cos (1 / (2 * 1e9) - B * 0)) 3.8317) := by
      rw [CircularWaveguide.getFieldDistributionTimeAsPhase, hparams, hrec]
      simp only [Option.bind_eq_bind', Option.some_bind, hrho0]
      rw [if_neg (by norm_num), if_neg (by norm_num)]
      rw [hkc]
      simp only [Option.bind_eq_bind', Option.some_bind, hchi]
      rfl
    rw [hLHS, hRHS]
    intro heq
    have hfield := Option.some.inj heq
    have hz := congrArg (fun v => v.H.z) hfield
    simp only [circ_TE_Hz] at hz
    rw [show (3.8317:ℝ) / 1 * 0 = 0 by norm_num] at hz
    rw [show besselJ 0 0 = 1 by rw [besselJ]; norm_num] at hz
    simp only [Nat.cast_zero, zero_mul, Real.cos_zero] at hz
    -- the common nonzero factors
    have hNF : (1 : ℝ) / (if |besselJ 0 3.8317| > 1e-10 then besselJ 0 3.8317 else 1) ≠ 0 := by
      by_cases hJ : |besselJ 0 3.8317| > 1e-10
      · rw [if_pos hJ]
        apply one_div_ne_zero
        intro h0
        rw [h0] at hJ
        simp at hJ
        linarith
      · rw [if_neg hJ]
        norm_num
    have hVN : (1 : ℝ) / (2 * π * 1e9 * CONSTANTS.mu0 / B * (3.8317 / 1)) ≠ 0 := by
      apply one_div_ne_zero
      have hmu : (0:ℝ) < CONSTANTS.mu0 := by
        rw [CONSTANTS.mu0]
        positivity
      positivity
    have hpfA : Real.cos (2 * π * 1e9 * (1 / (2 * 1e9)) - B * 0) = -1 := by
      rw [show 2 * π * 1e9 * (1 / (2 * 1e9)) - B * 0 = π by ring_nf]
      exact Real.cos_pi
    have hpfB : 0 < Real.cos (1 / (2 * 1e9) - B * 0) := by
      rw [show 1 / (2 * 1e9) - B * 0 = 1 / (2 * 1e9 : ℝ) by ring]
      apply Real.cos_pos_of_mem_Ioo
      constructor
      · nlinarith [Real.pi_gt_three]
      · nlinarith [Real.pi_gt_three]
    rw [hpfA] at hz
    have h1 := mul_right_cancel₀ hVN hz
    have ha : (1:ℝ) * (1 / (if |besselJ 0 3.8317| > 1e-10 then besselJ 0 3.8317 else 1)) *
        1 ≠ 0 := by simpa using hNF
    have h2 := mul_left_cancel₀ ha h1
    linarith [hpfB, h2]

/-- C10 (witness): the `1/f`-periodicity conjunct instantiated at `f = 2`. -/
theorem C10_time_convention_witness :
    (2 : ℝ) ≠ 0 ∧
      CircularWaveguide.getFieldDistribution { radius := 1 } 0 0 0
        { type := .TE, m := 1, n := 0 } 2 (0 + 1 / 2) =
      CircularWaveguide.getFieldDistribution { radius := 1 } 0 0 0
        { type := .TE, m := 1, n := 0 } 2 0 :=
  ⟨by norm_num, C10_time_convention.2.2.1 _ 0 0 0 _ 2 0 (by norm_num)⟩

end WaveguideSim
